import Mathlib

/-!
# Verification of the python-uniswap-demo token layer

A shallow embedding of the repository's `contracts.py` and `swap.py`:
the ERC-20 amount conversions (`TokenDetails.convert_to_decimals` /
`convert_to_raw`, which run on Python `decimal.Decimal` under its default
context of 28 significant digits), the cache key generation, the
`fetch_erc20_details` resolution with its per-field error policy and
token cache, the swap-event scanning and amount reporting of `swap.py`,
the transaction-confirmation classification, and the ABI repository
`get_abi_by_filename`.
-/

namespace UniswapDemo

/-! ## Python `decimal.Decimal` model (default context)

`contracts.py` performs `Decimal(raw_amount) / Decimal(10**self.decimals)`
and `int(decimal_amount * 10**self.decimals)` with the default
`decimal` context: 28 significant digits of precision, `ROUND_HALF_EVEN`.
Both conversion paths only ever produce non-negative values, so a decimal
value is modelled as a natural coefficient times a power of ten.  Every
arithmetic result is rounded to the context precision, exactly as the
Python `decimal` module does; `int()` truncates the value toward zero
(for the non-negative values arising here, this is the floor).
-/

/-- Decimal digit count of a natural number, fuel-based so that it reduces
in the kernel (0 has zero digits). -/
def digitCountFuel : ℕ → ℕ → ℕ
  | 0, _ => 0
  | fuel + 1, n => if n = 0 then 0 else digitCountFuel fuel (n / 10) + 1

/-- Number of decimal digits of `n` (0 has zero digits). -/
def decDigitCount (n : ℕ) : ℕ := digitCountFuel n n

/-- Precision of Python's default `decimal` context: 28 significant digits. -/
def pyDecimalPrec : ℕ := 28

/-- Round `n / 10 ^ p` to the nearest integer, ties to even
(`ROUND_HALF_EVEN`, the default `decimal` rounding mode). -/
def roundHalfEven (n p : ℕ) : ℕ :=
  let t := n / 10 ^ p
  let r := n % 10 ^ p
  if 2 * r < 10 ^ p then t
  else if 10 ^ p < 2 * r then t + 1
  else if t % 2 = 0 then t else t + 1

/-- A non-negative Python `decimal.Decimal` value: a coefficient times a
power of ten.  (The conversion code of `contracts.py` only ever produces
non-negative decimals, so no sign is carried.)  Two representations with
the same value are observationally equal for everything the source does
with them (`int()`, arithmetic), so coefficient normalisation performed by
Python (stripping to the ideal exponent) need not be mirrored. -/
structure PyDecimal where
  coeff : ℕ
  exp : ℤ
deriving Repr, DecidableEq

/-- The rational value of a decimal. -/
def PyDecimal.val (x : PyDecimal) : ℚ := (x.coeff : ℚ) * 10 ^ x.exp

/-- Round a coefficient/exponent pair to the context precision of 28
significant digits, half-even — what Python's `decimal` arithmetic does to
every operation result. -/
def roundToContext (m : ℕ) (e : ℤ) : PyDecimal :=
  if decDigitCount m ≤ pyDecimalPrec then ⟨m, e⟩
  else
    let k := decDigitCount m - pyDecimalPrec
    ⟨roundHalfEven m k, e + (k : ℤ)⟩

/-- Python `int(x)` for a non-negative decimal: truncation toward zero
(equals the floor since the value is non-negative). -/
def PyDecimal.toInt (x : PyDecimal) : ℤ :=
  match x.exp with
  | Int.ofNat k => ((x.coeff * 10 ^ k : ℕ) : ℤ)
  | Int.negSucc k => ((x.coeff / 10 ^ (k + 1) : ℕ) : ℤ)

/-- `TokenDetails.convert_to_decimals`:
`Decimal(raw_amount) / Decimal(10**self.decimals)` — the exact quotient
`raw_amount * 10 ^ (-decimals)` rounded to the context's 28 significant
digits. -/
def convert_to_decimals (decimals raw_amount : ℕ) : PyDecimal :=
  roundToContext raw_amount (-(decimals : ℤ))

/-- `TokenDetails.convert_to_raw`:
`int(decimal_amount * 10**self.decimals)` — the exact product rounded to
the context's 28 significant digits, then truncated to an integer. -/
def convert_to_raw (decimals : ℕ) (decimal_amount : PyDecimal) : ℤ :=
  (roundToContext (decimal_amount.coeff * 10 ^ decimals) decimal_amount.exp).toInt

theorem digitCountFuel_eq_digits_len (fuel : ℕ) :
    ∀ n, n ≤ fuel → digitCountFuel fuel n = (Nat.digits 10 n).length := by
  induction fuel with
  | zero =>
    intro n h
    have hn : n = 0 := Nat.le_zero.mp h
    subst hn
    simp [digitCountFuel]
  | succ fuel ih =>
    intro n h
    by_cases hn : n = 0
    · subst hn; simp [digitCountFuel]
    · have hdiv : n / 10 < n := Nat.div_lt_self (Nat.pos_of_ne_zero hn) (by norm_num)
      rw [digitCountFuel, if_neg hn, ih (n / 10) (by omega),
        Nat.digits_def' (by norm_num : (1 : ℕ) < 10) (Nat.pos_of_ne_zero hn)]
      simp

theorem decDigitCount_eq_digits_len (n : ℕ) :
    decDigitCount n = (Nat.digits 10 n).length :=
  digitCountFuel_eq_digits_len n n le_rfl

theorem decDigitCount_le_of_lt_pow {n k : ℕ} (h : n < 10 ^ k) :
    decDigitCount n ≤ k := by
  by_cases hn : n = 0
  · subst hn; simp [decDigitCount, digitCountFuel]
  · rw [decDigitCount_eq_digits_len,
      Nat.digits_len 10 n (by norm_num) hn]
    have hlog : Nat.log 10 n < k :=
      (Nat.lt_pow_iff_log_lt (by norm_num) hn).mp h
    omega

theorem roundHalfEven_mul_pow (a j k : ℕ) (h : k ≤ j) :
    roundHalfEven (a * 10 ^ j) k = a * 10 ^ (j - k) := by
  have h1 : a * 10 ^ j = a * 10 ^ (j - k) * 10 ^ k := by
    rw [mul_assoc, ← pow_add, Nat.sub_add_cancel h]
  have hpos : 0 < 10 ^ k := Nat.pos_pow_of_pos k (by norm_num)
  rw [roundHalfEven, h1]
  simp only [Nat.mul_mod_left, Nat.mul_div_cancel _ hpos]
  rw [if_pos (by omega : 2 * 0 < 10 ^ k)]

theorem toInt_mul_pow_neg (a j : ℕ) :
    PyDecimal.toInt ⟨a * 10 ^ j, -(j : ℤ)⟩ = (a : ℤ) := by
  cases j with
  | zero =>
    show PyDecimal.toInt ⟨a * 10 ^ 0, Int.ofNat 0⟩ = (a : ℤ)
    simp [PyDecimal.toInt]
  | succ j' =>
    show PyDecimal.toInt ⟨a * 10 ^ (j' + 1), Int.negSucc j'⟩ = (a : ℤ)
    have hpos : 0 < 10 ^ (j' + 1) := Nat.pos_pow_of_pos _ (by norm_num)
    simp only [PyDecimal.toInt, Nat.mul_div_cancel _ hpos]

/-- C1 — counterexample.  The claim fails on the code: with `decimals = 1`
(within `[0, 18]`) and raw amount `10^28 + 1` (29 decimal digits, well
inside the 77-digit uint256 range), `Decimal` division under Python's
default 28-significant-digit context rounds, and the round trip returns
`10^28`, not `10^28 + 1`. -/
theorem convert_round_trip_loses_precision :
    convert_to_raw 1 (convert_to_decimals 1 (10 ^ 28 + 1)) = 10 ^ 28 ∧
      convert_to_raw 1 (convert_to_decimals 1 (10 ^ 28 + 1)) ≠ (10 ^ 28 + 1 : ℤ) := by
  constructor <;> decide

/-- C1 — amended.  For every `decimals ∈ [0, 18]` and every raw integer
`r` with fewer than 29 decimal digits (`r < 10^28`, the precision of
Python's default `Decimal` context), the round trip
`convert_to_raw (convert_to_decimals r)` returns `r` exactly; the
exactness does not extend to the full 77-digit uint256 range. -/
theorem convert_round_trip_exact_below_prec (d r : ℕ) (hd : d ≤ 18)
    (hr : r < 10 ^ 28) :
    convert_to_raw d (convert_to_decimals d r) = (r : ℤ) := by
  have hr28 : decDigitCount r ≤ pyDecimalPrec := decDigitCount_le_of_lt_pow hr
  have h1 : convert_to_decimals d r = ⟨r, -(d : ℤ)⟩ := by
    rw [convert_to_decimals, roundToContext, if_pos hr28]
  rw [h1, convert_to_raw]
  by_cases h2 : decDigitCount (r * 10 ^ d) ≤ pyDecimalPrec
  · rw [roundToContext, if_pos h2]
    exact toInt_mul_pow_neg r d
  · have hlt : r * 10 ^ d < 10 ^ (28 + d) := by
      rw [pow_add]
      exact Nat.mul_lt_mul_of_lt_of_le hr le_rfl (Nat.pos_pow_of_pos d (by norm_num))
    have hcount : decDigitCount (r * 10 ^ d) ≤ 28 + d := decDigitCount_le_of_lt_pow hlt
    have hk : decDigitCount (r * 10 ^ d) - pyDecimalPrec ≤ d := by
      simp only [pyDecimalPrec] at *
      omega
    rw [roundToContext, if_neg h2]
    simp only
    rw [roundHalfEven_mul_pow r d _ hk]
    have hexp : -(d : ℤ) + ((decDigitCount (r * 10 ^ d) - pyDecimalPrec : ℕ) : ℤ) =
        -(((d - (decDigitCount (r * 10 ^ d) - pyDecimalPrec) : ℕ)) : ℤ) := by
      omega
    rw [hexp]
    exact toInt_mul_pow_neg r _

/-- C1 — witness for the amended theorem at `decimals = 6`, `r = 123456`. -/
theorem convert_round_trip_exact_below_prec_witness :
    (6 : ℕ) ≤ 18 ∧ (123456 : ℕ) < 10 ^ 28 ∧
      convert_to_raw 6 (convert_to_decimals 6 123456) = (123456 : ℤ) :=
  ⟨by norm_num, by norm_num,
    convert_round_trip_exact_below_prec 6 123456 (by norm_num) (by norm_num)⟩

/-! ## Python strings and exceptions

Python strings are modelled as their character sequences, so that
`str.lower()`, slicing and the prefix tests of the source are fully
computable in the kernel. -/

/-- A Python string. -/
abbrev PyStr := List Char

/-- ASCII `str.lower()` on one character. -/
def charLower (c : Char) : Char :=
  if 'A' ≤ c && c ≤ 'Z' then Char.ofNat (c.toNat + 32) else c

/-- `s.lower()`. -/
def pyLower (s : PyStr) : PyStr := s.map charLower

/-- `address.startswith("0x")`. -/
def startsWith0x (s : PyStr) : Bool :=
  match s with
  | '0' :: 'x' :: _ => true
  | _ => false

/-- Exception-class names that are bound in `contracts.py`: the classes
imported at the top of the module together with the Python builtins its
code touches.  `TokenDetailError`, which the strict-mode error paths of
`fetch_erc20_details` reference, is bound nowhere — it is neither imported
nor defined anywhere in the repository. -/
def contractsInScopeExceptionNames : List PyStr :=
  ["TransactionFailed".data, "BadFunctionCallOutput".data, "ValueError".data,
   "ContractLogicError".data, "OverflowError".data, "FileNotFoundError".data,
   "AssertionError".data, "NameError".data, "TypeError".data, "KeyError".data]

/-- A Python exception as observed by the caller: either an instance of a
bound exception class, or the `NameError` produced by evaluating an
unbound name. -/
inductive PyError where
  | raised (cls : PyStr) (msg : PyStr)
  | nameError (missing : PyStr)
deriving Repr, DecidableEq

/-- Executing `raise Cls(msg)`: Python resolves the name `Cls` before
building the exception, so if `Cls` is bound the named exception is
raised, and otherwise a `NameError` escapes from the raise site. -/
def pyRaise (cls : PyStr) (msg : PyStr) : PyError :=
  if cls ∈ contractsInScopeExceptionNames then .raised cls msg
  else .nameError cls

/-- Whether a call completed without an exception. -/
def exceptOk {ε α : Type} (e : Except ε α) : Bool :=
  match e with
  | .ok _ => true
  | .error _ => false

instance {ε α : Type} [DecidableEq ε] [DecidableEq α] :
    DecidableEq (Except ε α) := fun a b =>
  match a, b with
  | .error x, .error y =>
    if h : x = y then isTrue (by rw [h])
    else isFalse fun hh => h (Except.error.inj hh)
  | .ok x, .ok y =>
    if h : x = y then isTrue (by rw [h])
    else isFalse fun hh => h (Except.ok.inj hh)
  | .error _, .ok _ => isFalse fun hh => Except.noConfusion hh
  | .ok _, .error _ => isFalse fun hh => Except.noConfusion hh

/-! ## Cache key generation (`TokenDetails.generate_cache_key`) -/

/-- Stand-in for Python's `hash` of an `(int, str)` tuple.  Within one
process `hash` is a fixed deterministic function (the hash salt is fixed at
interpreter start, and the cache lives in-process), and every property
below depends only on that, so a concrete mixing function represents it. -/
def pyHash (chain_id : ℤ) (s : PyStr) : ℤ :=
  s.foldl (fun a c => a * 31 + (c.toNat : ℤ)) (chain_id * 1000003)

/-- `TokenDetails.generate_cache_key`.  The `type(chain_id) == int` and
`type(address) == str` asserts are carried by the Lean argument types; the
remaining `assert address.startswith("0x")` fails with `AssertionError`
for other inputs; on success the key is `hash((chain_id,
address.lower()))`. -/
def generate_cache_key (chain_id : ℤ) (address : PyStr) : Except PyError ℤ :=
  if startsWith0x address then .ok (pyHash chain_id (pyLower address))
  else .error (pyRaise "AssertionError".data [])

/-- A `0x`-prefixed hexadecimal string, following the words of the spec's
precondition (`CacheKey`); compared below against what the source actually
validates. -/
def isHexAddressSpec (s : PyStr) : Bool :=
  startsWith0x s &&
    (s.drop 2).all fun c =>
      c.isDigit || ('a' ≤ c && c ≤ 'f') || ('A' ≤ c && c ≤ 'F')

/-- C8 — counterexample.  `generate_cache_key 1 "0xzz"` succeeds even
though `"0xzz"` is not a hexadecimal string: the source's asserts check
only the argument types and the literal `"0x"` prefix, so an address with
non-hex characters after the prefix is not rejected, contrary to the
claim's "any other input being a caller-error contract violation". -/
theorem generate_cache_key_accepts_non_hex :
    isHexAddressSpec "0xzz".data = false ∧
      exceptOk (generate_cache_key 1 "0xzz".data) = true := by
  constructor <;> decide

/-- C8 — amended.  `generate_cache_key` is a deterministic (pure) function
of `(chainId, address)` and is case-insensitive on the address: any two
`"0x"`-prefixed addresses equal up to letter case get equal keys, because
the address is lower-cased before hashing.  The validation enforced before
key generation is that `chainId` is an `int`, the address is a `str` and
that it starts with `"0x"`; the hex-digit content after the prefix is not
checked. -/
theorem generate_cache_key_case_insensitive (c : ℤ) (a b : PyStr)
    (ha : startsWith0x a = true) (hb : startsWith0x b = true)
    (hlow : pyLower a = pyLower b) :
    generate_cache_key c a = generate_cache_key c b ∧
      ∀ s : PyStr, exceptOk (generate_cache_key c s) = startsWith0x s := by
  constructor
  · rw [generate_cache_key, generate_cache_key, if_pos ha, if_pos hb, hlow]
  · intro s
    by_cases hs : startsWith0x s = true
    · rw [generate_cache_key, if_pos hs, hs]
      rfl
    · have hs' : startsWith0x s = false := by simpa using hs
      rw [generate_cache_key, if_neg (by simp [hs']), hs']
      rfl

/-- C8 — witness: the claim's own example, `key(1, "0xABC") ==
key(1, "0xabc")`. -/
theorem generate_cache_key_case_insensitive_witness :
    generate_cache_key 1 "0xABC".data = generate_cache_key 1 "0xabc".data :=
  (generate_cache_key_case_insensitive 1 "0xABC".data "0xabc".data
    (by decide) (by decide) (by decide)).1

/-! ## ERC-20 metadata resolution (`fetch_erc20_details`) -/

/-- Outcome of one `contract.functions.<field>().call()` against the node:
a decoded value, or one of the two exception classes the source
distinguishes — a member of `_call_missing_exceptions =
(TransactionFailed, BadFunctionCallOutput, ValueError,
ContractLogicError)`, or an `OverflowError` from decoding an oversized
fixed-length byte value returned in place of a string. -/
inductive CallResult (α : Type) where
  | ok (v : α)
  | missingErr
  | overflowErr
deriving Repr, DecidableEq

/-- The remote node as seen while resolving one token: the chain id and
the outcome each of the four ERC-20 field calls would have. -/
structure Erc20Chain where
  chainId : ℕ
  symbolR : CallResult PyStr
  nameR : CallResult PyStr
  decimalsR : CallResult ℕ
  totalSupplyR : CallResult ℕ
deriving Repr, DecidableEq

/-- JSON-RPC requests the resolver can issue. -/
inductive RpcCall where
  | ethChainId
  | callSymbol
  | callName
  | callDecimals
  | callTotalSupply
deriving Repr, DecidableEq

/-- `web3.eth.contract(abi=get_abi_by_filename('ERC20.json'),
address=address)`: a locally constructed contract binding — building it
performs no RPC. -/
structure Erc20Contract where
  address : PyStr
deriving Repr, DecidableEq

/-- The `TokenDetails` dataclass, fields in source order. -/
structure TokenDetails where
  contract : Erc20Contract
  name : Option PyStr := none
  symbol : Option PyStr := none
  total_supply : Option ℕ := none
  decimals : Option ℕ := none
deriving Repr, DecidableEq

/-- The dict of raw fields written into the token cache
(`{"name": ..., "symbol": ..., "supply": ..., "decimals": ...}`). -/
structure TokenCacheEntry where
  name : Option PyStr
  symbol : Option PyStr
  supply : Option ℕ
  decimals : ℕ
deriving Repr, DecidableEq

/-- The token cache, key → stored fields.  The source default is
`cachetools.LRUCache(1024)`; the claims below never drive it to capacity,
so only the mapping is modelled, not the recency bookkeeping. -/
abbrev TokenCache := List (ℤ × TokenCacheEntry)

/-- `cache.get(key)`. -/
def cacheGet (c : TokenCache) (k : ℤ) : Option TokenCacheEntry :=
  (c.find? fun p => p.1 == k).map fun p => p.2

/-- `cache[key] = {...}`. -/
def cacheSet (c : TokenCache) (k : ℤ) (v : TokenCacheEntry) : TokenCache :=
  (k, v) :: c.filter fun p => p.1 != k

/-- `if cache is not None: cached = cache.get(key)` (`none` when the cache
is disabled). -/
def cacheLookup (cache : Option TokenCache) (k : ℤ) : Option TokenCacheEntry :=
  match cache with
  | some c => cacheGet c k
  | none => none

/-- `if cache is not None: cache[key] = {...}`. -/
def cacheWrite (cache : Option TokenCache) (k : ℤ) (v : TokenCacheEntry) :
    Option TokenCache :=
  match cache with
  | some c => some (cacheSet c k v)
  | none => none

/-- Modelled from the spec: the external `Web3.to_checksum_address`
recodes an address into its checksummed (EIP-55 mixed-case) form.  Every
claim below depends only on it being a fixed deterministic function of the
address, so a concrete recoding stands in for the Keccak-based one. -/
def to_checksum_address (s : PyStr) : PyStr :=
  '0' :: 'x' :: pyLower (s.drop 2)

/-- `if not chain_id: chain_id = web3.eth.chain_id` — `None` and `0` are
falsy, and the look-up is one RPC. -/
def resolveChainId (web3 : Erc20Chain) (chain_id : Option ℕ) :
    ℕ × List RpcCall :=
  match chain_id with
  | none => (web3.chainId, [.ethChainId])
  | some c => if c = 0 then (web3.chainId, [.ethChainId]) else (c, [])

/-- The `symbol` read: `erc_20.functions.symbol().call()[0:max_str_length]`
with its two handlers — `_call_missing_exceptions` (re-raised as
`TokenDetailError` in strict mode, `None` otherwise) and `OverflowError`
(`None` unconditionally). -/
def readSymbol (res : CallResult PyStr) (token_address : PyStr)
    (max_str_length : ℕ) (raise_on_error : Bool) :
    Except PyError (Option PyStr) :=
  match res with
  | .ok v => .ok (some (v.take max_str_length))
  | .missingErr =>
    if raise_on_error then
      .error (pyRaise "TokenDetailError".data
        ("Token ".data ++ token_address ++ " missing symbol".data))
    else .ok none
  | .overflowErr => .ok none

/-- The `name` read, with the same pair of handlers as `symbol`. -/
def readName (res : CallResult PyStr) (token_address : PyStr)
    (max_str_length : ℕ) (raise_on_error : Bool) :
    Except PyError (Option PyStr) :=
  match res with
  | .ok v => .ok (some (v.take max_str_length))
  | .missingErr =>
    if raise_on_error then
      .error (pyRaise "TokenDetailError".data
        ("Token ".data ++ token_address ++ " missing name".data))
    else .ok none
  | .overflowErr => .ok none

/-- The `decimals` read: only `_call_missing_exceptions` is handled
(defaulting to 0 in lenient mode); an `OverflowError` here is not caught
and escapes. -/
def readDecimals (res : CallResult ℕ) (token_address : PyStr)
    (raise_on_error : Bool) : Except PyError ℕ :=
  match res with
  | .ok v => .ok v
  | .missingErr =>
    if raise_on_error then
      .error (pyRaise "TokenDetailError".data
        ("Token ".data ++ token_address ++ " missing decimals".data))
    else .ok 0
  | .overflowErr => .error (.raised "OverflowError".data [])

/-- The `totalSupply` read: only `_call_missing_exceptions` is handled
(defaulting to `None` in lenient mode); an `OverflowError` escapes. -/
def readTotalSupply (res : CallResult ℕ) (token_address : PyStr)
    (raise_on_error : Bool) : Except PyError (Option ℕ) :=
  match res with
  | .ok v => .ok (some v)
  | .missingErr =>
    if raise_on_error then
      .error (pyRaise "TokenDetailError".data
        ("Token ".data ++ token_address ++ " missing totalSupply".data))
    else .ok none
  | .overflowErr => .error (.raised "OverflowError".data [])

/-- The part of `fetch_erc20_details` after the chain id is known: build
the contract binding locally, compute the cache key from the original
(un-checksummed) address, answer from the cache on a hit, otherwise
perform the four field reads and write the cache once at the end.
`calls0` is the RPC trace accumulated so far. -/
def fetchResolved (web3 : Erc20Chain) (token_address : PyStr)
    (max_str_length : ℕ) (raise_on_error : Bool)
    (cache : Option TokenCache) (cid : ℕ) (calls0 : List RpcCall) :
    Except PyError TokenDetails × Option TokenCache × List RpcCall :=
  match generate_cache_key (cid : ℤ) token_address with
    | .error e => (.error e, cache, calls0)
    | .ok key =>
      match cacheLookup cache key with
      | some cached =>
        (.ok ⟨⟨to_checksum_address token_address⟩, cached.name, cached.symbol,
          cached.supply, some cached.decimals⟩, cache, calls0)
      | none =>
        match readSymbol web3.symbolR token_address max_str_length raise_on_error with
        | .error e => (.error e, cache, calls0 ++ [.callSymbol])
        | .ok symbol =>
          match readName web3.nameR token_address max_str_length raise_on_error with
          | .error e => (.error e, cache, calls0 ++ [.callSymbol, .callName])
          | .ok name =>
            match readDecimals web3.decimalsR token_address raise_on_error with
            | .error e =>
              (.error e, cache, calls0 ++ [.callSymbol, .callName, .callDecimals])
            | .ok decimals =>
              match readTotalSupply web3.totalSupplyR token_address raise_on_error with
              | .error e =>
                (.error e, cache,
                  calls0 ++ [.callSymbol, .callName, .callDecimals, .callTotalSupply])
              | .ok supply =>
                (.ok ⟨⟨to_checksum_address token_address⟩, name, symbol, supply,
                    some decimals⟩,
                  cacheWrite cache key ⟨name, symbol, supply, decimals⟩,
                  calls0 ++ [.callSymbol, .callName, .callDecimals, .callTotalSupply])

/-- `fetch_erc20_details`.  Returns the outcome (a `TokenDetails` or the
escaping exception), the cache after the call, and the JSON-RPC calls
performed, in order: the chain-id resolution when the hint is falsy,
followed by `fetchResolved`. -/
def fetch_erc20_details (web3 : Erc20Chain) (token_address : PyStr)
    (max_str_length : ℕ) (raise_on_error : Bool)
    (cache : Option TokenCache) (chain_id : Option ℕ) :
    Except PyError TokenDetails × Option TokenCache × List RpcCall :=
  fetchResolved web3 token_address max_str_length raise_on_error cache
    (resolveChainId web3 chain_id).1 (resolveChainId web3 chain_id).2

/-- C2 — the code diverges from the claim.  In strict mode a recognized
symbol-read failure reaches `raise TokenDetailError(f"Token {...} missing
symbol")`; but `TokenDetailError` is bound nowhere in the repository, so
Python raises `NameError` at the raise site instead of a metadata error
naming the field.  No partially built result is returned and the cache is
untouched, but the documented metadata-error type does not exist.  The
concrete run: a token whose `symbol()` call fails with
`BadFunctionCallOutput`, resolved strictly with an empty enabled cache. -/
theorem fetch_strict_missing_symbol_raises_name_error :
    "TokenDetailError".data ∉ contractsInScopeExceptionNames ∧
      fetch_erc20_details ⟨1, .missingErr, .ok "Name".data, .ok 6, .ok 1000⟩
          "0xabc".data 256 true (some []) (some 1) =
        (.error (.nameError "TokenDetailError".data), some [], [.callSymbol]) := by
  constructor <;> decide

/-- C7.  An `OverflowError` while decoding the `symbol` or `name` value
degrades the field to `None` unconditionally — the handler does not
consult `raise_on_error`, so not even strict mode raises — whereas the
`decimals` and `totalSupply` read blocks handle only
`_call_missing_exceptions`: an `OverflowError` there escapes as an
uncaught exception in either mode. -/
theorem overflow_none_for_symbol_name_only (token_address : PyStr)
    (max_str_length : ℕ) (raise_on_error : Bool) :
    readSymbol .overflowErr token_address max_str_length raise_on_error = .ok none ∧
      readName .overflowErr token_address max_str_length raise_on_error = .ok none ∧
      readDecimals .overflowErr token_address raise_on_error =
        .error (.raised "OverflowError".data []) ∧
      readTotalSupply .overflowErr token_address raise_on_error =
        .error (.raised "OverflowError".data []) :=
  ⟨rfl, rfl, rfl, rfl⟩

/-- C10.  Whenever resolution aborts with an error — in particular a
strict-mode failure on any of the four metadata reads — the cache comes
back exactly as it went in: the single cache write sits after all four
reads, so no entry (complete or partial) is stored for the failed key. -/
theorem fetch_error_leaves_cache_unchanged (web3 : Erc20Chain)
    (token_address : PyStr) (max_str_length : ℕ) (raise_on_error : Bool)
    (cache : Option TokenCache) (chain_id : Option ℕ) (e : PyError)
    (cacheOut : Option TokenCache) (calls : List RpcCall)
    (h : fetch_erc20_details web3 token_address max_str_length raise_on_error
      cache chain_id = (.error e, cacheOut, calls)) :
    cacheOut = cache := by
  unfold fetch_erc20_details fetchResolved at h
  rcases hk : generate_cache_key (((resolveChainId web3 chain_id).1 : ℕ) : ℤ)
      token_address with ek | key <;> rw [hk] at h <;> dsimp only at h
  · simp only [Prod.mk.injEq] at h
    exact h.2.1.symm
  · rcases hcl : cacheLookup cache key with _ | cached <;> rw [hcl] at h <;>
      dsimp only at h
    · rcases hsym : readSymbol web3.symbolR token_address max_str_length
          raise_on_error with es | symbol <;> rw [hsym] at h <;> dsimp only at h
      · simp only [Prod.mk.injEq] at h
        exact h.2.1.symm
      · rcases hname : readName web3.nameR token_address max_str_length
            raise_on_error with en | nm <;> rw [hname] at h <;> dsimp only at h
        · simp only [Prod.mk.injEq] at h
          exact h.2.1.symm
        · rcases hdec : readDecimals web3.decimalsR token_address
              raise_on_error with ed | dec <;> rw [hdec] at h <;> dsimp only at h
          · simp only [Prod.mk.injEq] at h
            exact h.2.1.symm
          · rcases hsup : readTotalSupply web3.totalSupplyR token_address
                raise_on_error with esup | sup <;> rw [hsup] at h <;>
              dsimp only at h
            · simp only [Prod.mk.injEq] at h
              exact h.2.1.symm
            · simp only [Prod.mk.injEq] at h
              exact absurd h.1 (by simp)
    · simp only [Prod.mk.injEq] at h
      exact absurd h.1 (by simp)

/-- C10 — witness: a strict resolution failing on the `decimals` read
leaves the (empty, enabled) cache unchanged. -/
theorem fetch_error_leaves_cache_unchanged_witness :
    fetch_erc20_details ⟨1, .ok "USDC".data, .ok "USD Coin".data, .missingErr,
        .ok 5⟩ "0xabc".data 256 true (some []) (some 1) =
      (.error (.nameError "TokenDetailError".data), some [],
        [.callSymbol, .callName, .callDecimals]) ∧
      (some [] : Option TokenCache) = some [] :=
  ⟨by decide,
    fetch_error_leaves_cache_unchanged
      ⟨1, .ok "USDC".data, .ok "USD Coin".data, .missingErr, .ok 5⟩
      "0xabc".data 256 true (some []) (some 1)
      (.nameError "TokenDetailError".data) (some [])
      [.callSymbol, .callName, .callDecimals] (by decide)⟩

/-- C6.  In lenient mode (`raise_on_error=False`) a recognized symbol-read
failure does not raise and yields `symbol = None`; under the same policy
an unreadable `decimals` defaults to 0 (not `None`); and resolution
continues through the remaining fields — the name and totalSupply calls
are still made, so all four field reads appear in the RPC trace. -/
theorem fetch_lenient_defaults (web3 : Erc20Chain) (token_address : PyStr)
    (max_str_length : ℕ) (cid : ℕ) (nameRes : Option PyStr)
    (supplyRes : Option ℕ) (hcid : cid ≠ 0)
    (h0x : startsWith0x token_address = true)
    (hs : web3.symbolR = .missingErr) (hd : web3.decimalsR = .missingErr)
    (hn : readName web3.nameR token_address max_str_length false = .ok nameRes)
    (hsup : readTotalSupply web3.totalSupplyR token_address false = .ok supplyRes) :
    fetch_erc20_details web3 token_address max_str_length false none (some cid) =
      (.ok ⟨⟨to_checksum_address token_address⟩, nameRes, none, supplyRes, some 0⟩,
        none, [.callSymbol, .callName, .callDecimals, .callTotalSupply]) := by
  rw [fetch_erc20_details,
    show resolveChainId web3 (some cid) = (cid, []) by simp [resolveChainId, hcid]]
  unfold fetchResolved
  rw [show generate_cache_key (cid : ℤ) token_address =
      .ok (pyHash (cid : ℤ) (pyLower token_address)) by
    rw [generate_cache_key, if_pos h0x]]
  rw [hs, hn, hd, hsup]
  rfl

theorem cacheGet_cacheSet_self (c : TokenCache) (k : ℤ) (v : TokenCacheEntry) :
    cacheGet (cacheSet c k v) k = some v := by
  simp [cacheGet, cacheSet, List.find?]

/-- Evaluation of a resolution whose key is found in the enabled cache:
no field RPC is issued and the stored fields are returned around a freshly
built contract binding. -/
theorem fetch_hit_eval (env : Erc20Chain) (token_address : PyStr) (m : ℕ)
    (r : Bool) (c : TokenCache) (cid : ℕ) (key : ℤ) (entry : TokenCacheEntry)
    (hcid : cid ≠ 0)
    (hk : generate_cache_key (cid : ℤ) token_address = .ok key)
    (hcl : cacheGet c key = some entry) :
    fetch_erc20_details env token_address m r (some c) (some cid) =
      (.ok ⟨⟨to_checksum_address token_address⟩, entry.name, entry.symbol,
        entry.supply, some entry.decimals⟩, some c, []) := by
  unfold fetch_erc20_details fetchResolved
  rw [show resolveChainId env (some cid) = (cid, []) by simp [resolveChainId, hcid]]
  dsimp only
  rw [hk]
  dsimp only
  rw [show cacheLookup (some c) key = some entry from hcl]

/-- C3.  If a resolution with an enabled cache and an explicit (truthy)
chain-id hint succeeds, a second call for the same `(chain_id, address)` —
against any chain state, in either error mode — answers from the cache: it
performs zero RPC calls, returns the cache unchanged, and yields a
`TokenDetails` whose name, symbol, decimals and totalSupply are exactly
those of the first result, with the contract binding freshly rebuilt from
the address rather than taken from the cache. -/
theorem fetch_second_call_cache_hit (env1 env2 : Erc20Chain)
    (token_address : PyStr) (m1 m2 : ℕ) (r1 r2 : Bool) (c : TokenCache)
    (cid : ℕ) (td1 : TokenDetails) (cache1 : Option TokenCache)
    (calls1 : List RpcCall) (hcid : cid ≠ 0)
    (h1 : fetch_erc20_details env1 token_address m1 r1 (some c) (some cid) =
      (.ok td1, cache1, calls1)) :
    fetch_erc20_details env2 token_address m2 r2 cache1 (some cid) =
      (.ok ⟨⟨to_checksum_address token_address⟩, td1.name, td1.symbol,
        td1.total_supply, td1.decimals⟩, cache1, []) := by
  unfold fetch_erc20_details fetchResolved at h1
  rw [show resolveChainId env1 (some cid) = (cid, []) by
    simp [resolveChainId, hcid]] at h1
  dsimp only at h1
  rcases hk : generate_cache_key (cid : ℤ) token_address with ek | key <;>
    rw [hk] at h1 <;> dsimp only at h1
  · simp at h1
  · rcases hcl : cacheLookup (some c) key with _ | cached <;> rw [hcl] at h1 <;>
      dsimp only at h1
    · rcases hsym : readSymbol env1.symbolR token_address m1 r1 with es | symbol <;>
        rw [hsym] at h1 <;> dsimp only at h1
      · simp at h1
      · rcases hname : readName env1.nameR token_address m1 r1 with en | nm <;>
          rw [hname] at h1 <;> dsimp only at h1
        · simp at h1
        · rcases hdec : readDecimals env1.decimalsR token_address r1 with ed | dec <;>
            rw [hdec] at h1 <;> dsimp only at h1
          · simp at h1
          · rcases hsup : readTotalSupply env1.totalSupplyR token_address r1
                with esup | sup <;> rw [hsup] at h1 <;> dsimp only at h1
            · simp at h1
            · simp only [Prod.mk.injEq] at h1
              obtain ⟨htd, hc1, -⟩ := h1
              obtain rfl := Except.ok.inj htd
              subst hc1
              exact fetch_hit_eval env2 token_address m2 r2
                (cacheSet c key ⟨nm, symbol, sup, dec⟩) cid key
                ⟨nm, symbol, sup, dec⟩ hcid hk
                (cacheGet_cacheSet_self c key ⟨nm, symbol, sup, dec⟩)
    · simp only [Prod.mk.injEq] at h1
      obtain ⟨htd, hc1, -⟩ := h1
      obtain rfl := Except.ok.inj htd
      subst hc1
      exact fetch_hit_eval env2 token_address m2 r2 c cid key cached hcid hk hcl

/-- C3 — witness: a first resolution over a live chain fills the cache;
the second call, pointed at a hostile chain state on which every field
read would fail, still returns the same four fields with no RPC calls. -/
theorem fetch_second_call_cache_hit_witness :
    fetch_erc20_details ⟨999, .missingErr, .missingErr, .missingErr, .missingErr⟩
        "0xAbC".data 7 false
        (some (cacheSet [] (pyHash 1 (pyLower "0xAbC".data))
          ⟨some "USD Coin".data, some "USDC".data, some 1000000, 6⟩)) (some 1) =
      (.ok ⟨⟨to_checksum_address "0xAbC".data⟩, some "USD Coin".data,
          some "USDC".data, some 1000000, some 6⟩,
        some (cacheSet [] (pyHash 1 (pyLower "0xAbC".data))
          ⟨some "USD Coin".data, some "USDC".data, some 1000000, 6⟩), []) :=
  fetch_second_call_cache_hit
    ⟨1, .ok "USDC".data, .ok "USD Coin".data, .ok 6, .ok 1000000⟩
    ⟨999, .missingErr, .missingErr, .missingErr, .missingErr⟩
    "0xAbC".data 256 7 true false [] 1
    ⟨⟨to_checksum_address "0xAbC".data⟩, some "USD Coin".data,
      some "USDC".data, some 1000000, some 6⟩
    (some (cacheSet [] (pyHash 1 (pyLower "0xAbC".data))
      ⟨some "USD Coin".data, some "USDC".data, some 1000000, 6⟩))
    [.callSymbol, .callName, .callDecimals, .callTotalSupply]
    (by decide) (by decide)

/-- C6 — witness: a token whose `symbol` and `decimals` reads fail with
recognized failures, resolved leniently with the cache disabled. -/
theorem fetch_lenient_defaults_witness :
    fetch_erc20_details ⟨1, .missingErr, .ok "Tok".data, .missingErr, .ok 42⟩
        "0xdead".data 256 false none (some 1) =
      (.ok ⟨⟨to_checksum_address "0xdead".data⟩, some "Tok".data, none, some 42,
          some 0⟩, none,
        [.callSymbol, .callName, .callDecimals, .callTotalSupply]) :=
  fetch_lenient_defaults ⟨1, .missingErr, .ok "Tok".data, .missingErr, .ok 42⟩
    "0xdead".data 256 1 (some "Tok".data) (some 42)
    (by decide) (by decide) rfl rfl (by decide) (by decide)

/-! ## Swap event decoding (`swap.py`) -/

/-- One receipt log entry.  `topics` are the indexed topics (`topics[0]`
is the event signature topic); the non-indexed payload is carried already
ABI-decoded, as the source's
`web3.codec.decode(["int256", "int256", "uint160", "uint128"], data)`
quadruple (`amount0`, `amount1`, `sqrtPriceX96`, `liquidity`). -/
structure LogEntry where
  topics : List ℕ
  amount0 : ℤ
  amount1 : ℤ
  sqrtPriceX96 : ℕ
  liquidity : ℕ
deriving Repr, DecidableEq

/-- `next((log for log in tx_receipt.logs if log.topics[0] ==
swap_event_signature), None)`: the first log whose primary topic equals
the Swap signature topic, `None` when there is none.  (The source indexes
`topics[0]` unconditionally; receipt logs carry at least the signature
topic, modelled by comparing the head of the topic list.) -/
def findSwapEvent (logs : List LogEntry) (sig : ℕ) : Option LogEntry :=
  logs.find? fun l => l.topics.head? == some sig

/-- `amount_out = decoded_event[0] if int(decoded_event[0]) < 0 else
decoded_event[1]`. -/
def realizedAmountOut (amount0 amount1 : ℤ) : ℤ :=
  if amount0 < 0 then amount0 else amount1

/-- `abs(amount_out / 10 ** base.decimals)` — the reported actual amount
out, in units of the output token.  The source's `/` is Python float
division; it is modelled as exact rational division (float division is
correctly rounded, and at the claim's instance the quotient 0.5 is a
dyadic rational that IEEE-754 doubles represent exactly, so model and
printed value agree there). -/
def reportedAmountOut (amount0 amount1 : ℤ) (decimals : ℕ) : ℚ :=
  |(realizedAmountOut amount0 amount1 : ℚ) / 10 ^ decimals|

/-- The whole decode block applied to a mined receipt's logs: the reported
amount for the first matching log, `None` when no log matches. -/
def decodeSwapOutcome (logs : List LogEntry) (sig : ℕ) (decimals : ℕ) :
    Option ℚ :=
  (findSwapEvent logs sig).map fun l =>
    reportedAmountOut l.amount0 l.amount1 decimals

/-- C4.  The decoder scans the logs in order and takes the first log
whose primary topic equals the Swap signature topic; when no log matches
it yields `None`, not an error; any log it returns is a match; the
realized output is `amount0` when `amount0 < 0` and `amount1` otherwise,
reported as its absolute value scaled by `10^decimals` — and at the
claim's instance `amount0 = -500000`, `amount1 = 500100`, `decimals = 6`
the reported output is `0.5`. -/
theorem swap_event_decode_spec :
    (∀ (l : LogEntry) (rest : List LogEntry) (sig : ℕ),
      findSwapEvent (l :: rest) sig =
        if l.topics.head? = some sig then some l else findSwapEvent rest sig) ∧
      (∀ (logs : List LogEntry) (sig : ℕ),
        (∀ l ∈ logs, l.topics.head? ≠ some sig) →
          findSwapEvent logs sig = none ∧ decodeSwapOutcome logs sig 6 = none) ∧
      (∀ (logs : List LogEntry) (sig : ℕ) (l : LogEntry),
        findSwapEvent logs sig = some l → l.topics.head? = some sig) ∧
      realizedAmountOut (-500000) 500100 = -500000 ∧
      reportedAmountOut (-500000) 500100 6 = 1 / 2 := by
  refine ⟨?_, ?_, ?_, ?_, ?_⟩
  · intro l rest sig
    by_cases hl : l.topics.head? = some sig
    · simp [findSwapEvent, List.find?_cons, hl]
    · simp only [findSwapEvent, List.find?_cons]
      rw [show (l.topics.head? == some sig) = false by simpa using hl]
      rw [if_neg hl]
  · intro logs sig hall
    have hnone : findSwapEvent logs sig = none := by
      rw [findSwapEvent, List.find?_eq_none]
      intro l hl
      simpa using hall l hl
    exact ⟨hnone, by rw [decodeSwapOutcome, hnone]; rfl⟩
  · intro logs sig l hfind
    have := List.find?_some hfind
    simpa using this
  · rfl
  · rw [reportedAmountOut, realizedAmountOut, if_pos (by norm_num : (-500000 : ℤ) < 0)]
    norm_num

/-- C4 — witness: a receipt with one non-Swap log reports no swap event,
and the claim's numeric instance reports `0.5`. -/
theorem swap_event_decode_spec_witness :
    (findSwapEvent [⟨[7], 1, 2, 0, 0⟩] 9 = none ∧
      decodeSwapOutcome [⟨[7], 1, 2, 0, 0⟩] 9 6 = none) ∧
      reportedAmountOut (-500000) 500100 6 = 1 / 2 :=
  ⟨swap_event_decode_spec.2.1 [⟨[7], 1, 2, 0, 0⟩] 9 (by decide),
    swap_event_decode_spec.2.2.2.2⟩

/-! ## Transaction confirmation (`swap.py`) -/

/-- A mined transaction receipt. -/
structure Receipt where
  status : ℕ
  txHash : ℕ
  logs : List LogEntry
deriving Repr, DecidableEq

/-- The three confirmation outcomes of the `swap.py` confirmation block.
`confirm` below is a total function into this type, so exactly one of the
three outcomes is produced per submitted transaction. -/
inductive TxOutcome where
  | minedSuccess (receipt : Receipt)
  | minedFailure (receipt : Receipt)
  | timedOut
deriving Repr, DecidableEq

/-- Modelled from the spec: `web3.eth.wait_for_transaction_receipt` is
library code outside `src/`; per §4.4 it polls the node once per interval
and gives up when the timeout elapses with no receipt.  `receiptAt n` is
the node's answer to the n-th poll; the loop makes at most the given
number of polls (the deadline measured in poll intervals). -/
def pollForReceipt (receiptAt : ℕ → Option Receipt) (tick : ℕ) :
    ℕ → Option Receipt
  | 0 => none
  | fuel + 1 =>
    match receiptAt tick with
    | some r => some r
    | none => pollForReceipt receiptAt (tick + 1) fuel

/-- `web3.eth.wait_for_transaction_receipt(tx_hash, timeout=...)`:
`none` models the `TimeExhausted` exception. -/
def wait_for_transaction_receipt (receiptAt : ℕ → Option Receipt)
    (timeout : ℕ) : Option Receipt :=
  pollForReceipt receiptAt 0 timeout

/-- The confirmation block of `swap.py` (lines 131–166): wait for the
receipt under the timeout; `status == 1` is the success path, any other
mined status takes the `raise Exception(...)` failure path, and
`TimeExhausted` takes the timed-out path. -/
def confirm (receiptAt : ℕ → Option Receipt) (timeout : ℕ) : TxOutcome :=
  match wait_for_transaction_receipt receiptAt timeout with
  | none => .timedOut
  | some receipt =>
    if receipt.status = 1 then .minedSuccess receipt else .minedFailure receipt

theorem pollForReceipt_eq_none (receiptAt : ℕ → Option Receipt) :
    ∀ (fuel tick : ℕ), (∀ n, tick ≤ n → n < tick + fuel → receiptAt n = none) →
      pollForReceipt receiptAt tick fuel = none := by
  intro fuel
  induction fuel with
  | zero => intro tick _; rfl
  | succ fuel ih =>
    intro tick hall
    rw [pollForReceipt, hall tick le_rfl (by omega)]
    exact ih (tick + 1) fun n h1 h2 => hall n (by omega) (by omega)

theorem pollForReceipt_congr (f g : ℕ → Option Receipt) :
    ∀ (fuel tick : ℕ), (∀ n, tick ≤ n → n < tick + fuel → f n = g n) →
      pollForReceipt f tick fuel = pollForReceipt g tick fuel := by
  intro fuel
  induction fuel with
  | zero => intro tick _; rfl
  | succ fuel ih =>
    intro tick hagree
    rw [pollForReceipt, pollForReceipt, hagree tick le_rfl (by omega)]
    cases g tick with
    | some r => rfl
    | none => exact ih (tick + 1) fun n h1 h2 => hagree n (by omega) (by omega)

/-- C5.  Confirmation classifies the outcome as a function of the
receipt: a receipt with `status = 1` yields Mined-Success and one with
`status = 0` yields Mined-Failure; when the node produces no receipt
within the deadline the outcome is TimedOut; and the wait never blocks
past the deadline — the outcome is fully determined by the node's answers
to the first `timeout` polls.  `confirm` is a total function into the
three-constructor `TxOutcome`, so exactly one outcome is produced. -/
theorem confirm_classification (receiptAt : ℕ → Option Receipt)
    (timeout : ℕ) (receipt : Receipt) :
    (wait_for_transaction_receipt receiptAt timeout = some receipt →
      receipt.status = 1 → confirm receiptAt timeout = .minedSuccess receipt) ∧
      (wait_for_transaction_receipt receiptAt timeout = some receipt →
        receipt.status = 0 → confirm receiptAt timeout = .minedFailure receipt) ∧
      ((∀ n, n < timeout → receiptAt n = none) →
        confirm receiptAt timeout = .timedOut) ∧
      (∀ g : ℕ → Option Receipt, (∀ n, n < timeout → receiptAt n = g n) →
        confirm receiptAt timeout = confirm g timeout) := by
  refine ⟨?_, ?_, ?_, ?_⟩
  · intro hw hs
    rw [confirm, hw]
    dsimp only
    rw [if_pos hs]
  · intro hw hs
    rw [confirm, hw]
    dsimp only
    rw [if_neg (by omega)]
  · intro hall
    rw [confirm, wait_for_transaction_receipt,
      pollForReceipt_eq_none receiptAt timeout 0 fun n _ h2 => hall n (by omega)]
  · intro g hagree
    rw [confirm, confirm, wait_for_transaction_receipt,
      wait_for_transaction_receipt,
      pollForReceipt_congr receiptAt g timeout 0 fun n _ h2 => hagree n (by omega)]

/-- A node that answers every poll with the same mined receipt. -/
def alwaysReceipt (r : Receipt) : ℕ → Option Receipt := fun _ => some r

/-- A node that never answers with a receipt. -/
def neverReceipt : ℕ → Option Receipt := fun _ => none

/-- C5 — witness: a status-1 receipt confirms as Mined-Success, a
status-0 receipt as Mined-Failure, and a node that never produces the
receipt times out. -/
theorem confirm_classification_witness :
    confirm (alwaysReceipt ⟨1, 77, []⟩) 3 = .minedSuccess ⟨1, 77, []⟩ ∧
      confirm (alwaysReceipt ⟨0, 78, []⟩) 3 = .minedFailure ⟨0, 78, []⟩ ∧
      confirm neverReceipt 5 = .timedOut :=
  ⟨(confirm_classification (alwaysReceipt ⟨1, 77, []⟩) 3 ⟨1, 77, []⟩).1
      (by decide) rfl,
    (confirm_classification (alwaysReceipt ⟨0, 78, []⟩) 3 ⟨0, 78, []⟩).2.1
      (by decide) rfl,
    (confirm_classification neverReceipt 5 ⟨0, 0, []⟩).2.2.1
      fun n _ => rfl⟩

/-! ## Contract interface repository (`get_abi_by_filename`) -/

/-- An ABI document (the parsed JSON of one embedded interface file),
opaque to the claims. -/
structure AbiDoc where
  contents : PyStr
deriving Repr, DecidableEq

/-- Modelled from the spec: the embedded ABI files shipped next to the
module (the `abi/` directory is repository data outside `src/`).  A
logical name is known exactly when its JSON file exists there; the three
filenames the source requests are present. -/
def abiFiles : List (PyStr × AbiDoc) :=
  [("ERC20.json".data, ⟨"erc20 interface".data⟩),
    ("SwapRouterV2.json".data, ⟨"router interface".data⟩),
    ("QuoterV2.json".data, ⟨"quoter interface".data⟩)]

/-- The effects a repository lookup can have on the world. -/
inductive IoEffect where
  | fileRead (path : PyStr)
  | networkCall
deriving Repr, DecidableEq

/-- `FileNotFoundError` escaping from `open(abi_path)` — the spec's
`InterfaceNotFound`: an unknown logical contract name was requested. -/
inductive AbiError where
  | interfaceNotFound (fname : PyStr)
deriving Repr, DecidableEq

/-- The in-process memo of `@lru_cache(maxsize=512)` on
`get_abi_by_filename`; the repository holds three names, so the size
bound is never reached and eviction is not modelled. -/
abbrev AbiCache := List (PyStr × AbiDoc)

/-- `get_abi_by_filename` under its `lru_cache`: a memoized name is
answered from the cache with no I/O at all; otherwise the file
`abi/<fname>` is read — an unknown name fails with `FileNotFoundError`,
and only successful reads are memoized.  The effect trace never contains
a network call. -/
def get_abi_by_filename (cache : AbiCache) (fname : PyStr) :
    Except AbiError AbiDoc × AbiCache × List IoEffect :=
  match cache.find? fun p => p.1 == fname with
  | some p => (.ok p.2, cache, [])
  | none =>
    match abiFiles.find? fun p => p.1 == fname with
    | some p => (.ok p.2, cache ++ [(fname, p.2)], [.fileRead ("abi/".data ++ fname)])
    | none => (.error (.interfaceNotFound fname), cache,
        [.fileRead ("abi/".data ++ fname)])

/-- C9.  A lookup of an unknown logical contract name fails with
`InterfaceNotFound`; a known name is answered (from the memo, with no
I/O, or from its file, adding only its own entry to the in-process
cache); and no lookup whatsoever performs network I/O. -/
theorem get_abi_lookup_spec (cache : AbiCache) (fname : PyStr) :
    (cache.find? (fun p => p.1 == fname) = none →
      abiFiles.find? (fun p => p.1 == fname) = none →
      get_abi_by_filename cache fname =
        (.error (.interfaceNotFound fname), cache,
          [.fileRead ("abi/".data ++ fname)])) ∧
      (∀ p, cache.find? (fun q => q.1 == fname) = some p →
        get_abi_by_filename cache fname = (.ok p.2, cache, [])) ∧
      (∀ p, cache.find? (fun q => q.1 == fname) = none →
        abiFiles.find? (fun q => q.1 == fname) = some p →
        get_abi_by_filename cache fname =
          (.ok p.2, cache ++ [(fname, p.2)], [.fileRead ("abi/".data ++ fname)])) ∧
      IoEffect.networkCall ∉ (get_abi_by_filename cache fname).2.2 := by
  refine ⟨?_, ?_, ?_, ?_⟩
  · intro hc hf
    rw [get_abi_by_filename, hc, hf]
  · intro p hc
    rw [get_abi_by_filename, hc]
  · intro p hc hf
    rw [get_abi_by_filename, hc, hf]
  · rw [get_abi_by_filename]
    rcases hc : cache.find? fun p => p.1 == fname with _ | p
    · rw [hc]
      rcases hf : abiFiles.find? fun p => p.1 == fname with _ | q
      · rw [hf]
        simp
      · rw [hf]
        simp
    · rw [hc]
      simp

/-- C9 — witness: the unknown name `Nope.json` fails with
`InterfaceNotFound`, and the known name `ERC20.json` is read and
memoized with a file read as the only effect. -/
theorem get_abi_lookup_spec_witness :
    get_abi_by_filename [] "Nope.json".data =
      (.error (.interfaceNotFound "Nope.json".data), [],
        [.fileRead ("abi/".data ++ "Nope.json".data)]) ∧
      get_abi_by_filename [] "ERC20.json".data =
        (.ok ⟨"erc20 interface".data⟩,
          [("ERC20.json".data, ⟨"erc20 interface".data⟩)],
          [.fileRead ("abi/".data ++ "ERC20.json".data)]) :=
  ⟨(get_abi_lookup_spec [] "Nope.json".data).1 (by decide) (by decide),
    (get_abi_lookup_spec [] "ERC20.json".data).2.2.1
      ("ERC20.json".data, ⟨"erc20 interface".data⟩) (by decide) (by decide)⟩

end UniswapDemo
